import Mathlib

/-!
# Gradient Energy Tensor — shallow embedding

A shallow embedding of `vigra::gradientEnergyTensor` from
`include/vigra/gradient_energy_tensor.hxx`, together with theorems about the
derivative cascade and the pointwise tensor-assembly loop.

Images are modelled as total pixel functions tagged with their (signed)
dimensions, matching the `int w, h` of the source; pixel values are rationals
(the real-promoted working type). The external collaborators — the separable
convolution primitive `convolveImage`, the pointwise combinator
`combineTwoImages`, and the `vigra_precondition` error mechanism — are not part
of this header and are modelled from the spec where noted.
-/

namespace Vigra

/-- The single error kind of this core: `vigra_precondition` (from the
`utilities.hxx` collaborator) raises a precondition failure carrying the
violated condition message. -/
inductive VigraError where
  | preconditionFailure (msg : String)
deriving DecidableEq

/-- A 2-D offset / iterator position, as in VIGRA's `Diff2D`. -/
structure Diff2D where
  x : Int
  y : Int
deriving DecidableEq

/-- A 1-D convolution kernel: immutable taps indexed from `left` to `right`
(with `left ≤ 0 ≤ right` for well-formed VIGRA kernels, though nothing here
depends on that). -/
structure Kernel1D where
  left : Int
  right : Int
  taps : Int → ℚ

/-- A dense 2-D scalar field: signed dimensions (the source computes
`int w = slowerright.x - supperleft.x`) and a total pixel function; the
meaningful region is `0 ≤ x < w`, `0 ≤ y < h`. -/
@[ext]
structure ScalarImage where
  w : Int
  h : Int
  pix : Int → Int → ℚ

/-- A dense multi-band image: a band count (what `dest.size(dupperleft)`
returns) and a total per-band pixel function. -/
@[ext]
structure MultibandImage where
  bands : Nat
  pix : Nat → Int → Int → ℚ

/-- Modelled from the spec: the border-handling policy of the external
convolution primitive (out-of-range indices are mapped back into the valid
range; the spec delegates the exact policy to the collaborator, so we fix the
repeat-border mapping `clamp t into [0, n-1]`). -/
def borderIndex (n : Int) (t : Int) : Int := min (max t 0) (n - 1)

/-- Modelled from the spec: the external separable convolution primitive
`convolveImage(src, dest, kernelAlongX, kernelAlongY)` from `convolution.hxx`
(not part of this header) — "filtering a 2-D image by applying one 1-D kernel
along rows and a (possibly different) 1-D kernel along columns", producing a
field of the same dimensions as the input, with border handling per
`borderIndex`. -/
def convolveImage (img : ScalarImage) (kx ky : Kernel1D) : ScalarImage where
  w := img.w
  h := img.h
  pix := fun x y =>
    ∑ i in Finset.Icc kx.left kx.right,
      ∑ j in Finset.Icc ky.left ky.right,
        kx.taps i * ky.taps j *
          img.pix (borderIndex img.w (x - i)) (borderIndex img.h (y - j))

/-- Modelled from the spec: the external pointwise combinator
`combineTwoImages(..., std::plus)` from `combineimages.hxx` (not part of this
header) — "element-wise sum, same dimensions". -/
def combineTwoImagesPlus (a b : ScalarImage) : ScalarImage where
  w := a.w
  h := a.h
  pix := fun x y => a.pix x y + b.pix x y

/-- `vigra::sq` from the utilities collaborator: squaring. -/
def sq (x : ℚ) : ℚ := x * x

/-- Write component `b` of the destination pixel at `(x, y)`
(`dest.setComponent(v, d, b)` in the source). -/
def setComponent (img : MultibandImage) (v : ℚ) (x y : Int) (b : Nat) :
    MultibandImage where
  bands := img.bands
  pix := fun b2 x2 y2 => if b2 = b ∧ x2 = x ∧ y2 = y then v else img.pix b2 x2 y2

/-- The eight intermediate scalar fields produced by the derivative cascade
(the spec counts `laplace` among the "seven" intermediates). -/
structure CascadeFields where
  gx : ScalarImage
  gy : ScalarImage
  gxx : ScalarImage
  gxy : ScalarImage
  gyy : ScalarImage
  laplace : ScalarImage
  gx3 : ScalarImage
  gy3 : ScalarImage

/-- The derivative cascade of `gradientEnergyTensor` (source lines 126–141):
seven separable convolutions and one pointwise sum, in fixed order, with the
derivative kernel along the axis matching each field's designation. -/
def derivativeCascade (src : ScalarImage) (derivKernel smoothKernel : Kernel1D) :
    CascadeFields :=
  let gx := convolveImage src derivKernel smoothKernel
  let gy := convolveImage src smoothKernel derivKernel
  let gxx := convolveImage gx derivKernel smoothKernel
  let gxy := convolveImage gx smoothKernel derivKernel
  let gyy := convolveImage gy smoothKernel derivKernel
  let laplace := combineTwoImagesPlus gxx gyy
  let gx3 := convolveImage laplace derivKernel smoothKernel
  let gy3 := convolveImage laplace smoothKernel derivKernel
  ⟨gx, gy, gxx, gxy, gyy, laplace, gx3, gy3⟩

/-- Band 0 of the output (source line 154):
`sq(*gxxi) + sq(*gxyi) - *gxi * *gx3i`. -/
def t11 (F : CascadeFields) (x y : Int) : ℚ :=
  sq (F.gxx.pix x y) + sq (F.gxy.pix x y) - F.gx.pix x y * F.gx3.pix x y

/-- Band 1 of the output (source line 155):
`- *gxyi * (*gxxi + *gyyi) + 0.5 * (*gxi * *gy3i + *gyi * *gx3i)`. -/
def t12 (F : CascadeFields) (x y : Int) : ℚ :=
  - F.gxy.pix x y * (F.gxx.pix x y + F.gyy.pix x y)
    + (1 / 2) * (F.gx.pix x y * F.gy3.pix x y + F.gy.pix x y * F.gx3.pix x y)

/-- Band 2 of the output (source line 156):
`sq(*gxyi) + sq(*gyyi) - *gyi * *gy3i`. -/
def t22 (F : CascadeFields) (x y : Int) : ℚ :=
  sq (F.gxy.pix x y) + sq (F.gyy.pix x y) - F.gy.pix x y * F.gy3.pix x y

/-- The band-indexed view of the three pointwise tensor formulas
(meaningful for `b < 3`). -/
def tensorComponent (F : CascadeFields) (b : Nat) (x y : Int) : ℚ :=
  match b with
  | 0 => t11 F x y
  | 1 => t12 F x y
  | _ => t22 F x y

/-- The body of the assembly loop at loop coordinates `(x, y)` (source lines
154–156): three `setComponent` writes at destination pixel
`(dupperleft.x + x, dupperleft.y + y)`. -/
def writeTensorPixel (dest : MultibandImage) (dupperleft : Diff2D)
    (F : CascadeFields) (x y : Int) : MultibandImage :=
  let d0 := setComponent dest (t11 F x y) (dupperleft.x + x) (dupperleft.y + y) 0
  let d1 := setComponent d0 (t12 F x y) (dupperleft.x + x) (dupperleft.y + y) 1
  setComponent d1 (t22 F x y) (dupperleft.x + x) (dupperleft.y + y) 2

/-- The tensor-assembly double loop (source lines 149–158):
`for(y = 0; y < h; ++y) for(x = 0; x < w; ++x)` writing the three bands at
each destination pixel. -/
def tensorAssemble (dest : MultibandImage) (dupperleft : Diff2D)
    (F : CascadeFields) (w h : Int) : MultibandImage :=
  (List.range h.toNat).foldl
    (fun d (y : Nat) =>
      (List.range w.toNat).foldl
        (fun d2 (x : Nat) => writeTensorPixel d2 dupperleft F (x : Int) (y : Int)) d)
    dest

/-- The source region `srcIterRange(supperleft, slowerright, src)` viewed as a
scalar image of dimensions `w = slowerright.x - supperleft.x`,
`h = slowerright.y - supperleft.y`, with the accessor translated to the
region origin. -/
def srcRegionImage (supperleft slowerright : Diff2D) (src : Int → Int → ℚ) :
    ScalarImage where
  w := slowerright.x - supperleft.x
  h := slowerright.y - supperleft.y
  pix := fun x y => src (supperleft.x + x) (supperleft.y + y)

/-- The message of the single precondition in the source (lines 113–114). -/
def bandMsg : String := "gradientEnergyTensor(): output image must have 3 bands."

/-- `vigra::gradientEnergyTensor` (explicit-argument overload, source lines
107–159): checks the 3-band precondition, runs the derivative cascade on the
source region, then assembles the three tensor bands pointwise into the
destination. -/
def gradientEnergyTensor (supperleft slowerright : Diff2D) (src : Int → Int → ℚ)
    (dupperleft : Diff2D) (dest : MultibandImage)
    (derivKernel smoothKernel : Kernel1D) : Except VigraError MultibandImage :=
  if dest.bands = 3 then
    let w := slowerright.x - supperleft.x
    let h := slowerright.y - supperleft.y
    let F := derivativeCascade (srcRegionImage supperleft slowerright src)
      derivKernel smoothKernel
    .ok (tensorAssemble dest dupperleft F w h)
  else
    .error (.preconditionFailure bandMsg)

/-- VIGRA's `triple` argument object. -/
structure VigraTriple (α β γ : Type) where
  first : α
  second : β
  third : γ

/-- VIGRA's `pair` argument object. -/
structure VigraPair (α β : Type) where
  first : α
  second : β

/-- `vigra::gradientEnergyTensor` (argument-object overload, source lines
161–170): unpacks the `triple`/`pair` and forwards to the explicit overload. -/
def gradientEnergyTensorArgObj
    (src : VigraTriple Diff2D Diff2D (Int → Int → ℚ))
    (dest : VigraPair Diff2D MultibandImage)
    (derivKernel smoothKernel : Kernel1D) : Except VigraError MultibandImage :=
  gradientEnergyTensor src.first src.second src.third
    dest.first dest.second derivKernel smoothKernel

/-- Sum of a kernel's taps; a derivative kernel annihilates constants exactly
when this vanishes. -/
def kernelTapSum (k : Kernel1D) : ℚ :=
  ∑ i in Finset.Icc k.left k.right, k.taps i

/-- The all-zero source accessor. -/
def zeroSrc : Int → Int → ℚ := fun _ _ => 0

/-- The spatially constant source accessor with value `c`. -/
def constSrc (c : ℚ) : Int → Int → ℚ := fun _ _ => c

/-! ## Characterization of the assembly loop -/

lemma setComponent_pix (img : MultibandImage) (v : ℚ) (x y : Int) (b b2 : Nat)
    (x2 y2 : Int) :
    (setComponent img v x y b).pix b2 x2 y2 =
      if b2 = b ∧ x2 = x ∧ y2 = y then v else img.pix b2 x2 y2 := rfl

lemma setComponent_bands (img : MultibandImage) (v : ℚ) (x y : Int) (b : Nat) :
    (setComponent img v x y b).bands = img.bands := rfl

lemma writeTensorPixel_pix (dest : MultibandImage) (dul : Diff2D)
    (F : CascadeFields) (x y : Int) (b : Nat) (x2 y2 : Int) :
    (writeTensorPixel dest dul F x y).pix b x2 y2 =
      if b < 3 ∧ x2 = dul.x + x ∧ y2 = dul.y + y then
        tensorComponent F b x y
      else dest.pix b x2 y2 := by
  unfold writeTensorPixel
  rw [setComponent_pix, setComponent_pix, setComponent_pix]
  rcases b with _ | _ | _ | b <;> simp [tensorComponent]
  rw [if_neg (by omega)]

lemma writeTensorPixel_bands (dest : MultibandImage) (dul : Diff2D)
    (F : CascadeFields) (x y : Int) :
    (writeTensorPixel dest dul F x y).bands = dest.bands := rfl

lemma rowFold_pix (dul : Diff2D) (F : CascadeFields) (y : Int) (n : Nat)
    (dest : MultibandImage) (b : Nat) (x2 y2 : Int) :
    ((List.range n).foldl
        (fun d (x : Nat) => writeTensorPixel d dul F (x : Int) y) dest).pix b x2 y2 =
      if b < 3 ∧ y2 = dul.y + y ∧ dul.x ≤ x2 ∧ x2 < dul.x + (n : Int) then
        tensorComponent F b (x2 - dul.x) y
      else dest.pix b x2 y2 := by
  induction n generalizing dest with
  | zero =>
    rw [List.range_zero, List.foldl_nil, if_neg (by omega)]
  | succ n ih =>
    rw [List.range_succ, List.foldl_append, List.foldl_cons, List.foldl_nil,
      writeTensorPixel_pix, ih]
    split_ifs <;> first
      | rfl
      | omega
      | (congr 1; omega)

lemma rowFold_bands (dul : Diff2D) (F : CascadeFields) (y : Int) (n : Nat)
    (dest : MultibandImage) :
    ((List.range n).foldl
        (fun d (x : Nat) => writeTensorPixel d dul F (x : Int) y) dest).bands =
      dest.bands := by
  induction n generalizing dest with
  | zero => rfl
  | succ n ih =>
    rw [List.range_succ, List.foldl_append, List.foldl_cons, List.foldl_nil,
      writeTensorPixel_bands, ih]

lemma tensorAssemble_pix (dest : MultibandImage) (dul : Diff2D)
    (F : CascadeFields) (w h : Int) (b : Nat) (x2 y2 : Int) :
    (tensorAssemble dest dul F w h).pix b x2 y2 =
      if b < 3 ∧ dul.x ≤ x2 ∧ x2 < dul.x + (w.toNat : Int) ∧
          dul.y ≤ y2 ∧ y2 < dul.y + (h.toNat : Int) then
        tensorComponent F b (x2 - dul.x) (y2 - dul.y)
      else dest.pix b x2 y2 := by
  unfold tensorAssemble
  generalize h.toNat = m
  induction m generalizing dest with
  | zero =>
    rw [List.range_zero, List.foldl_nil, if_neg (by omega)]
  | succ m ih =>
    rw [List.range_succ, List.foldl_append, List.foldl_cons, List.foldl_nil,
      rowFold_pix, ih]
    split_ifs <;> first
      | rfl
      | omega
      | (congr 1; omega)

lemma tensorAssemble_bands (dest : MultibandImage) (dul : Diff2D)
    (F : CascadeFields) (w h : Int) :
    (tensorAssemble dest dul F w h).bands = dest.bands := by
  unfold tensorAssemble
  generalize h.toNat = m
  induction m generalizing dest with
  | zero => rfl
  | succ m ih =>
    rw [List.range_succ, List.foldl_append, List.foldl_cons, List.foldl_nil,
      rowFold_bands, ih]

/-- On a 3-band destination, `gradientEnergyTensor` reduces to the cascade
followed by the assembly loop. -/
lemma gradientEnergyTensor_ok (supperleft slowerright : Diff2D)
    (src : Int → Int → ℚ) (dupperleft : Diff2D) (dest : MultibandImage)
    (derivKernel smoothKernel : Kernel1D) (hb : dest.bands = 3) :
    gradientEnergyTensor supperleft slowerright src dupperleft dest
        derivKernel smoothKernel =
      .ok (tensorAssemble dest dupperleft
        (derivativeCascade (srcRegionImage supperleft slowerright src)
          derivKernel smoothKernel)
        (slowerright.x - supperleft.x) (slowerright.y - supperleft.y)) := by
  simp [gradientEnergyTensor, hb]

/-! ## Zero and constant images under the convolution primitive -/

lemma convolveImage_zero_pix (img : ScalarImage) (kx ky : Kernel1D)
    (hz : ∀ x y, img.pix x y = 0) (x y : Int) :
    (convolveImage img kx ky).pix x y = 0 := by
  simp [convolveImage, hz]

lemma combineTwoImagesPlus_zero_pix (a b : ScalarImage)
    (ha : ∀ x y, a.pix x y = 0) (hb : ∀ x y, b.pix x y = 0) (x y : Int) :
    (combineTwoImagesPlus a b).pix x y = 0 := by
  simp [combineTwoImagesPlus, ha, hb]

lemma convolveImage_const_pix (img : ScalarImage) (kx ky : Kernel1D) (c : ℚ)
    (hc : ∀ x y, img.pix x y = c) (x y : Int) :
    (convolveImage img kx ky).pix x y = kernelTapSum kx * kernelTapSum ky * c := by
  have step : kernelTapSum kx * kernelTapSum ky * c =
      ∑ i in Finset.Icc kx.left kx.right,
        ∑ j in Finset.Icc ky.left ky.right, kx.taps i * ky.taps j * c := by
    rw [kernelTapSum, kernelTapSum, Finset.sum_mul_sum, Finset.sum_mul]
    refine Finset.sum_congr rfl fun i _ => ?_
    rw [Finset.sum_mul]
  rw [step]
  simp [convolveImage, hc]

/-- If the first-order fields `gx` and `gy` vanish identically, every later
field of the cascade vanishes identically. -/
lemma derivativeCascade_zero_of_first_zero (src : ScalarImage)
    (derivKernel smoothKernel : Kernel1D)
    (hgx : ∀ x y, (convolveImage src derivKernel smoothKernel).pix x y = 0)
    (hgy : ∀ x y, (convolveImage src smoothKernel derivKernel).pix x y = 0) :
    ∀ x y,
      (derivativeCascade src derivKernel smoothKernel).gx.pix x y = 0 ∧
      (derivativeCascade src derivKernel smoothKernel).gy.pix x y = 0 ∧
      (derivativeCascade src derivKernel smoothKernel).gxx.pix x y = 0 ∧
      (derivativeCascade src derivKernel smoothKernel).gxy.pix x y = 0 ∧
      (derivativeCascade src derivKernel smoothKernel).gyy.pix x y = 0 ∧
      (derivativeCascade src derivKernel smoothKernel).laplace.pix x y = 0 ∧
      (derivativeCascade src derivKernel smoothKernel).gx3.pix x y = 0 ∧
      (derivativeCascade src derivKernel smoothKernel).gy3.pix x y = 0 := by
  have hgxx := fun x y =>
    convolveImage_zero_pix _ derivKernel smoothKernel hgx x y
  have hgxy := fun x y =>
    convolveImage_zero_pix _ smoothKernel derivKernel hgx x y
  have hgyy := fun x y =>
    convolveImage_zero_pix _ smoothKernel derivKernel hgy x y
  have hlap := fun x y =>
    combineTwoImagesPlus_zero_pix _ _ hgxx hgyy x y
  have hgx3 := fun x y =>
    convolveImage_zero_pix _ derivKernel smoothKernel hlap x y
  have hgy3 := fun x y =>
    convolveImage_zero_pix _ smoothKernel derivKernel hlap x y
  exact fun x y =>
    ⟨hgx x y, hgy x y, hgxx x y, hgxy x y, hgyy x y, hlap x y,
      hgx3 x y, hgy3 x y⟩

/-- If every field of the cascade vanishes at `(x, y)`, all three tensor
formulas vanish there. -/
lemma tensorComponent_zero (F : CascadeFields) (x y : Int)
    (h : F.gx.pix x y = 0 ∧ F.gy.pix x y = 0 ∧ F.gxx.pix x y = 0 ∧
      F.gxy.pix x y = 0 ∧ F.gyy.pix x y = 0 ∧ F.laplace.pix x y = 0 ∧
      F.gx3.pix x y = 0 ∧ F.gy3.pix x y = 0) (b : Nat) :
    tensorComponent F b x y = 0 := by
  obtain ⟨h1, h2, h3, h4, h5, -, h7, h8⟩ := h
  rcases b with _ | _ | _ | b <;>
    simp [tensorComponent, t11, t12, t22, sq, h1, h2, h3, h4, h5, h7, h8]

/-! ## Concrete test fixtures (used by the witness theorems) -/

/-- The 3-tap central-difference derivative kernel `[0.5, 0, -0.5]` from the
source documentation. -/
def testDeriv : Kernel1D :=
  ⟨-1, 1, fun i => if i = -1 then 1 / 2 else if i = 1 then -(1 / 2) else 0⟩

/-- The 3-tap smoothing kernel `[3/16, 10/16, 3/16]` from the source
documentation. -/
def testSmooth : Kernel1D :=
  ⟨-1, 1, fun i => if i = 0 then 10 / 16 else
    if i = -1 then 3 / 16 else if i = 1 then 3 / 16 else 0⟩

/-- A 3-band destination, initially zero. -/
def testDest : MultibandImage := ⟨3, fun _ _ _ => 0⟩

/-- A 4-band destination (violates the precondition). -/
def testDest4 : MultibandImage := ⟨4, fun _ _ _ => 0⟩

/-- Source region upper-left corner for the tests. -/
def testSul : Diff2D := ⟨0, 0⟩

/-- Source region lower-right corner: a 2×2 region. -/
def testSlr : Diff2D := ⟨2, 2⟩

/-- Destination upper-left iterator for the tests. -/
def testDul : Diff2D := ⟨0, 0⟩

/-- A small synthetic ramp source. -/
def testSrc : Int → Int → ℚ := fun x y => (x : ℚ) + 2 * (y : ℚ)

/-- The output of `gradientEnergyTensor` on the test fixtures. -/
def testOut : MultibandImage :=
  tensorAssemble testDest testDul
    (derivativeCascade (srcRegionImage testSul testSlr testSrc)
      testDeriv testSmooth) 2 2

/-! ## Claims -/

/-- C2: the seven intermediate fields are computed in the fixed order with the
fixed kernel-role assignment — for every input image and every pair of
kernels, `gx`/`gxx`/`gx3` convolve their input with the derivative kernel
along x and the smoothing kernel along y, `gy`/`gxy`/`gyy`/`gy3` with the
smoothing kernel along x and the derivative kernel along y, and `laplace` is
the pointwise sum of `gxx` and `gyy`. -/
theorem derivativeCascade_kernel_roles (img : ScalarImage)
    (derivKernel smoothKernel : Kernel1D) :
    (derivativeCascade img derivKernel smoothKernel).gx =
      convolveImage img derivKernel smoothKernel ∧
    (derivativeCascade img derivKernel smoothKernel).gy =
      convolveImage img smoothKernel derivKernel ∧
    (derivativeCascade img derivKernel smoothKernel).gxx =
      convolveImage (derivativeCascade img derivKernel smoothKernel).gx
        derivKernel smoothKernel ∧
    (derivativeCascade img derivKernel smoothKernel).gxy =
      convolveImage (derivativeCascade img derivKernel smoothKernel).gx
        smoothKernel derivKernel ∧
    (derivativeCascade img derivKernel smoothKernel).gyy =
      convolveImage (derivativeCascade img derivKernel smoothKernel).gy
        smoothKernel derivKernel ∧
    (derivativeCascade img derivKernel smoothKernel).laplace =
      combineTwoImagesPlus (derivativeCascade img derivKernel smoothKernel).gxx
        (derivativeCascade img derivKernel smoothKernel).gyy ∧
    (derivativeCascade img derivKernel smoothKernel).gx3 =
      convolveImage (derivativeCascade img derivKernel smoothKernel).laplace
        derivKernel smoothKernel ∧
    (derivativeCascade img derivKernel smoothKernel).gy3 =
      convolveImage (derivativeCascade img derivKernel smoothKernel).laplace
        smoothKernel derivKernel :=
  ⟨rfl, rfl, rfl, rfl, rfl, rfl, rfl, rfl⟩

/-- C3: `gradientEnergyTensor` raises `PreconditionFailure` exactly when the
destination band count is not 3; on failure the error is the band-count
precondition message, it is the same for every source and every pair of
kernels (so it is raised before any convolution work contributes), and no
output image is produced (the destination is unchanged). -/
theorem gradientEnergyTensor_precondition_iff (supperleft slowerright : Diff2D)
    (src : Int → Int → ℚ) (dupperleft : Diff2D) (dest : MultibandImage)
    (derivKernel smoothKernel : Kernel1D) :
    ((∃ e, gradientEnergyTensor supperleft slowerright src dupperleft dest
        derivKernel smoothKernel = Except.error e) ↔ dest.bands ≠ 3) ∧
    (dest.bands ≠ 3 →
      ∀ (src2 : Int → Int → ℚ) (dK2 sK2 : Kernel1D),
        gradientEnergyTensor supperleft slowerright src2 dupperleft dest
          dK2 sK2 =
          Except.error (VigraError.preconditionFailure bandMsg)) := by
  constructor
  · constructor
    · rintro ⟨e, he⟩ h3
      rw [gradientEnergyTensor_ok _ _ _ _ _ _ _ h3] at he
      exact Except.noConfusion he
    · intro h3
      exact ⟨VigraError.preconditionFailure bandMsg,
        by simp [gradientEnergyTensor, h3]⟩
  · intro h3 src2 dK2 sK2
    simp [gradientEnergyTensor, h3]

/-- Witness for C3: on a 4-band destination the call fails with the
band-count precondition message. -/
theorem gradientEnergyTensor_precondition_iff_witness :
    testDest4.bands ≠ 3 ∧
    gradientEnergyTensor testSul testSlr testSrc testDul testDest4
      testDeriv testSmooth =
      Except.error (VigraError.preconditionFailure bandMsg) :=
  ⟨by decide,
    (gradientEnergyTensor_precondition_iff testSul testSlr testSrc testDul
      testDest4 testDeriv testSmooth).2 (by decide) testSrc testDeriv
      testSmooth⟩

/-- C9: the argument-object overload of `gradientEnergyTensor` (taking a
`triple` of source iterators/accessor and a `pair` of destination
iterator/accessor) is extensionally equal to the explicit-argument overload:
for all inputs and kernels it produces the identical result, success or
error alike. -/
theorem gradientEnergyTensorArgObj_extensional
    (src : VigraTriple Diff2D Diff2D (Int → Int → ℚ))
    (dest : VigraPair Diff2D MultibandImage)
    (derivKernel smoothKernel : Kernel1D) :
    gradientEnergyTensorArgObj src dest derivKernel smoothKernel =
      gradientEnergyTensor src.first src.second src.third
        dest.first dest.second derivKernel smoothKernel := rfl

/-- C10: on an empty source region (lower-right not strictly beyond
upper-left in x or in y) with a 3-band destination, the call succeeds and
writes nothing: the result is the destination exactly as passed in. -/
theorem gradientEnergyTensor_empty_region (supperleft slowerright : Diff2D)
    (src : Int → Int → ℚ) (dupperleft : Diff2D) (dest : MultibandImage)
    (derivKernel smoothKernel : Kernel1D)
    (hempty : slowerright.x ≤ supperleft.x ∨ slowerright.y ≤ supperleft.y)
    (hb : dest.bands = 3) :
    gradientEnergyTensor supperleft slowerright src dupperleft dest
      derivKernel smoothKernel = Except.ok dest := by
  rw [gradientEnergyTensor_ok _ _ _ _ _ _ _ hb]
  congr 1
  apply MultibandImage.ext
  · rw [tensorAssemble_bands]
  · funext b x y
    rw [tensorAssemble_pix, if_neg (by omega)]

/-- Witness for C10: a width-zero region with a 3-band destination returns
the destination unchanged. -/
theorem gradientEnergyTensor_empty_region_witness :
    ((⟨0, 5⟩ : Diff2D).x ≤ testSul.x ∨ (⟨0, 5⟩ : Diff2D).y ≤ testSul.y) ∧
    testDest.bands = 3 ∧
    gradientEnergyTensor testSul ⟨0, 5⟩ testSrc testDul testDest
      testDeriv testSmooth = Except.ok testDest :=
  ⟨by decide, rfl,
    gradientEnergyTensor_empty_region testSul ⟨0, 5⟩ testSrc testDul testDest
      testDeriv testSmooth (by decide) rfl⟩

/-- C1: for every pixel `(x, y)` of the W×H region, the three output bands
written by `gradientEnergyTensor` are, in band order 0/1/2,
`t11 = gxx² + gxy² − gx·gx3`,
`t12 = −gxy·(gxx + gyy) + 0.5·(gx·gy3 + gy·gx3)`, and
`t22 = gxy² + gyy² − gy·gy3`, taken at the same coordinate of the seven
intermediate fields produced by the derivative cascade. -/
theorem gradientEnergyTensor_pointwise_formula (supperleft slowerright : Diff2D)
    (src : Int → Int → ℚ) (dupperleft : Diff2D) (dest : MultibandImage)
    (derivKernel smoothKernel : Kernel1D)
    (hb : dest.bands = 3) (out : MultibandImage)
    (hout : gradientEnergyTensor supperleft slowerright src dupperleft dest
      derivKernel smoothKernel = Except.ok out)
    (x y : Int) (hx0 : 0 ≤ x) (hxw : x < slowerright.x - supperleft.x)
    (hy0 : 0 ≤ y) (hyh : y < slowerright.y - supperleft.y) :
    out.pix 0 (dupperleft.x + x) (dupperleft.y + y) =
      t11 (derivativeCascade (srcRegionImage supperleft slowerright src)
        derivKernel smoothKernel) x y ∧
    out.pix 1 (dupperleft.x + x) (dupperleft.y + y) =
      t12 (derivativeCascade (srcRegionImage supperleft slowerright src)
        derivKernel smoothKernel) x y ∧
    out.pix 2 (dupperleft.x + x) (dupperleft.y + y) =
      t22 (derivativeCascade (srcRegionImage supperleft slowerright src)
        derivKernel smoothKernel) x y := by
  rw [gradientEnergyTensor_ok _ _ _ _ _ _ _ hb, Except.ok.injEq] at hout
  subst hout
  have ex : dupperleft.x + x - dupperleft.x = x := by omega
  have ey : dupperleft.y + y - dupperleft.y = y := by omega
  refine ⟨?_, ?_, ?_⟩ <;>
    · rw [tensorAssemble_pix, if_pos (by omega), ex, ey]
      rfl

/-- Witness for C1: on the 2×2 ramp fixture the three bands at pixel (0, 0)
equal the three tensor formulas evaluated on the cascade fields. -/
theorem gradientEnergyTensor_pointwise_formula_witness :
    testDest.bands = 3 ∧
    gradientEnergyTensor testSul testSlr testSrc testDul testDest
      testDeriv testSmooth = Except.ok testOut ∧
    (0 : Int) ≤ 0 ∧ (0 : Int) < testSlr.x - testSul.x ∧
    (0 : Int) < testSlr.y - testSul.y ∧
    (testOut.pix 0 (testDul.x + 0) (testDul.y + 0) =
      t11 (derivativeCascade (srcRegionImage testSul testSlr testSrc)
        testDeriv testSmooth) 0 0 ∧
    testOut.pix 1 (testDul.x + 0) (testDul.y + 0) =
      t12 (derivativeCascade (srcRegionImage testSul testSlr testSrc)
        testDeriv testSmooth) 0 0 ∧
    testOut.pix 2 (testDul.x + 0) (testDul.y + 0) =
      t22 (derivativeCascade (srcRegionImage testSul testSlr testSrc)
        testDeriv testSmooth) 0 0) :=
  ⟨rfl, rfl, le_refl 0, by decide, by decide,
    gradientEnergyTensor_pointwise_formula testSul testSlr testSrc testDul
      testDest testDeriv testSmooth rfl testOut rfl 0 0 (le_refl 0) (by decide)
      (le_refl 0) (by decide)⟩

/-- C4: every intermediate field of the cascade (gx, gy, gxx, gxy, gyy,
laplace, gx3, gy3) has exactly the W×H dimensions of the input region, and
the populated output region is exactly the W×H rectangle anchored at the
destination iterator: inside it (bands 0–2) the output carries the assembled
tensor values, outside it every destination pixel is unchanged. -/
theorem gradientEnergyTensor_dimension_preservation
    (supperleft slowerright : Diff2D) (src : Int → Int → ℚ)
    (dupperleft : Diff2D) (dest : MultibandImage)
    (derivKernel smoothKernel : Kernel1D)
    (hb : dest.bands = 3) (out : MultibandImage)
    (hout : gradientEnergyTensor supperleft slowerright src dupperleft dest
      derivKernel smoothKernel = Except.ok out) :
    ((derivativeCascade (srcRegionImage supperleft slowerright src)
        derivKernel smoothKernel).gx.w = slowerright.x - supperleft.x ∧
      (derivativeCascade (srcRegionImage supperleft slowerright src)
        derivKernel smoothKernel).gx.h = slowerright.y - supperleft.y ∧
      (derivativeCascade (srcRegionImage supperleft slowerright src)
        derivKernel smoothKernel).gy.w = slowerright.x - supperleft.x ∧
      (derivativeCascade (srcRegionImage supperleft slowerright src)
        derivKernel smoothKernel).gy.h = slowerright.y - supperleft.y ∧
      (derivativeCascade (srcRegionImage supperleft slowerright src)
        derivKernel smoothKernel).gxx.w = slowerright.x - supperleft.x ∧
      (derivativeCascade (srcRegionImage supperleft slowerright src)
        derivKernel smoothKernel).gxx.h = slowerright.y - supperleft.y ∧
      (derivativeCascade (srcRegionImage supperleft slowerright src)
        derivKernel smoothKernel).gxy.w = slowerright.x - supperleft.x ∧
      (derivativeCascade (srcRegionImage supperleft slowerright src)
        derivKernel smoothKernel).gxy.h = slowerright.y - supperleft.y ∧
      (derivativeCascade (srcRegionImage supperleft slowerright src)
        derivKernel smoothKernel).gyy.w = slowerright.x - supperleft.x ∧
      (derivativeCascade (srcRegionImage supperleft slowerright src)
        derivKernel smoothKernel).gyy.h = slowerright.y - supperleft.y ∧
      (derivativeCascade (srcRegionImage supperleft slowerright src)
        derivKernel smoothKernel).laplace.w = slowerright.x - supperleft.x ∧
      (derivativeCascade (srcRegionImage supperleft slowerright src)
        derivKernel smoothKernel).laplace.h = slowerright.y - supperleft.y ∧
      (derivativeCascade (srcRegionImage supperleft slowerright src)
        derivKernel smoothKernel).gx3.w = slowerright.x - supperleft.x ∧
      (derivativeCascade (srcRegionImage supperleft slowerright src)
        derivKernel smoothKernel).gx3.h = slowerright.y - supperleft.y ∧
      (derivativeCascade (srcRegionImage supperleft slowerright src)
        derivKernel smoothKernel).gy3.w = slowerright.x - supperleft.x ∧
      (derivativeCascade (srcRegionImage supperleft slowerright src)
        derivKernel smoothKernel).gy3.h = slowerright.y - supperleft.y) ∧
    (∀ (b : Nat) (x y : Int),
      out.pix b x y =
        if b < 3 ∧ dupperleft.x ≤ x ∧
            x < dupperleft.x + ((slowerright.x - supperleft.x).toNat : Int) ∧
            dupperleft.y ≤ y ∧
            y < dupperleft.y + ((slowerright.y - supperleft.y).toNat : Int) then
          tensorComponent (derivativeCascade
            (srcRegionImage supperleft slowerright src) derivKernel smoothKernel)
            b (x - dupperleft.x) (y - dupperleft.y)
        else dest.pix b x y) := by
  rw [gradientEnergyTensor_ok _ _ _ _ _ _ _ hb, Except.ok.injEq] at hout
  subst hout
  exact ⟨⟨rfl, rfl, rfl, rfl, rfl, rfl, rfl, rfl, rfl, rfl, rfl, rfl, rfl,
    rfl, rfl, rfl⟩, fun b x y => tensorAssemble_pix _ _ _ _ _ _ _ _⟩

/-- Witness for C4: the dimension invariant instantiated on the 2×2 ramp
fixture. -/
theorem gradientEnergyTensor_dimension_preservation_witness :
    testDest.bands = 3 ∧
    gradientEnergyTensor testSul testSlr testSrc testDul testDest
      testDeriv testSmooth = Except.ok testOut ∧
    (derivativeCascade (srcRegionImage testSul testSlr testSrc)
      testDeriv testSmooth).gx.w = testSlr.x - testSul.x ∧
    ∀ (b : Nat) (x y : Int),
      testOut.pix b x y =
        if b < 3 ∧ testDul.x ≤ x ∧
            x < testDul.x + ((testSlr.x - testSul.x).toNat : Int) ∧
            testDul.y ≤ y ∧
            y < testDul.y + ((testSlr.y - testSul.y).toNat : Int) then
          tensorComponent (derivativeCascade
            (srcRegionImage testSul testSlr testSrc) testDeriv testSmooth)
            b (x - testDul.x) (y - testDul.y)
        else testDest.pix b x y :=
  ⟨rfl, rfl,
    (gradientEnergyTensor_dimension_preservation testSul testSlr testSrc
      testDul testDest testDeriv testSmooth rfl testOut rfl).1.1,
    (gradientEnergyTensor_dimension_preservation testSul testSlr testSrc
      testDul testDest testDeriv testSmooth rfl testOut rfl).2⟩

/-- C8: once the 3-band precondition holds, the assembly has no failure mode:
the call returns success and the destination is fully populated — every band
0–2 of every pixel of the W×H region carries the total pointwise formula
value, for all values of the intermediate fields. -/
theorem gradientEnergyTensor_total_success (supperleft slowerright : Diff2D)
    (src : Int → Int → ℚ) (dupperleft : Diff2D) (dest : MultibandImage)
    (derivKernel smoothKernel : Kernel1D) (hb : dest.bands = 3) :
    ∃ out, gradientEnergyTensor supperleft slowerright src dupperleft dest
        derivKernel smoothKernel = Except.ok out ∧
      ∀ (b : Nat) (x y : Int), b < 3 →
        dupperleft.x ≤ x →
        x < dupperleft.x + ((slowerright.x - supperleft.x).toNat : Int) →
        dupperleft.y ≤ y →
        y < dupperleft.y + ((slowerright.y - supperleft.y).toNat : Int) →
        out.pix b x y =
          tensorComponent (derivativeCascade
            (srcRegionImage supperleft slowerright src) derivKernel smoothKernel)
            b (x - dupperleft.x) (y - dupperleft.y) := by
  refine ⟨_, gradientEnergyTensor_ok _ _ _ _ _ _ _ hb, ?_⟩
  intro b x y h1 h2 h3 h4 h5
  rw [tensorAssemble_pix, if_pos ⟨h1, h2, h3, h4, h5⟩]

/-- Witness for C8: success and full population on the 2×2 ramp fixture. -/
theorem gradientEnergyTensor_total_success_witness :
    testDest.bands = 3 ∧
    ∃ out, gradientEnergyTensor testSul testSlr testSrc testDul testDest
        testDeriv testSmooth = Except.ok out ∧
      ∀ (b : Nat) (x y : Int), b < 3 →
        testDul.x ≤ x →
        x < testDul.x + ((testSlr.x - testSul.x).toNat : Int) →
        testDul.y ≤ y →
        y < testDul.y + ((testSlr.y - testSul.y).toNat : Int) →
        out.pix b x y =
          tensorComponent (derivativeCascade
            (srcRegionImage testSul testSlr testSrc) testDeriv testSmooth)
            b (x - testDul.x) (y - testDul.y) :=
  ⟨rfl, gradientEnergyTensor_total_success testSul testSlr testSrc testDul
    testDest testDeriv testSmooth rfl⟩

/-- C5: on an all-zero input image of any size and any kernels (3-band
destination), every one of the intermediate fields of the cascade is zero
everywhere, and hence every band of every pixel of the populated output
region is zero. -/
theorem gradientEnergyTensor_zero_input (supperleft slowerright : Diff2D)
    (dupperleft : Diff2D) (dest : MultibandImage)
    (derivKernel smoothKernel : Kernel1D) (hb : dest.bands = 3)
    (out : MultibandImage)
    (hout : gradientEnergyTensor supperleft slowerright zeroSrc dupperleft dest
      derivKernel smoothKernel = Except.ok out) :
    (∀ x y : Int,
      (derivativeCascade (srcRegionImage supperleft slowerright zeroSrc)
        derivKernel smoothKernel).gx.pix x y = 0 ∧
      (derivativeCascade (srcRegionImage supperleft slowerright zeroSrc)
        derivKernel smoothKernel).gy.pix x y = 0 ∧
      (derivativeCascade (srcRegionImage supperleft slowerright zeroSrc)
        derivKernel smoothKernel).gxx.pix x y = 0 ∧
      (derivativeCascade (srcRegionImage supperleft slowerright zeroSrc)
        derivKernel smoothKernel).gxy.pix x y = 0 ∧
      (derivativeCascade (srcRegionImage supperleft slowerright zeroSrc)
        derivKernel smoothKernel).gyy.pix x y = 0 ∧
      (derivativeCascade (srcRegionImage supperleft slowerright zeroSrc)
        derivKernel smoothKernel).laplace.pix x y = 0 ∧
      (derivativeCascade (srcRegionImage supperleft slowerright zeroSrc)
        derivKernel smoothKernel).gx3.pix x y = 0 ∧
      (derivativeCascade (srcRegionImage supperleft slowerright zeroSrc)
        derivKernel smoothKernel).gy3.pix x y = 0) ∧
    (∀ (b : Nat) (x y : Int), b < 3 →
      dupperleft.x ≤ x →
      x < dupperleft.x + ((slowerright.x - supperleft.x).toNat : Int) →
      dupperleft.y ≤ y →
      y < dupperleft.y + ((slowerright.y - supperleft.y).toNat : Int) →
      out.pix b x y = 0) := by
  have hz : ∀ x y : Int,
      (srcRegionImage supperleft slowerright zeroSrc).pix x y = 0 :=
    fun _ _ => rfl
  have hall := derivativeCascade_zero_of_first_zero
    (srcRegionImage supperleft slowerright zeroSrc) derivKernel smoothKernel
    (fun x y => convolveImage_zero_pix _ _ _ hz x y)
    (fun x y => convolveImage_zero_pix _ _ _ hz x y)
  rw [gradientEnergyTensor_ok _ _ _ _ _ _ _ hb, Except.ok.injEq] at hout
  subst hout
  refine ⟨hall, ?_⟩
  intro b x y h1 h2 h3 h4 h5
  rw [tensorAssemble_pix, if_pos ⟨h1, h2, h3, h4, h5⟩]
  exact tensorComponent_zero _ _ _ (hall _ _) b

/-- Witness for C5: the zero image on the 2×2 fixture gives a zero gx field
and a zero output pixel at (0, 0) of band 0. -/
theorem gradientEnergyTensor_zero_input_witness :
    testDest.bands = 3 ∧
    gradientEnergyTensor testSul testSlr zeroSrc testDul testDest
      testDeriv testSmooth = Except.ok (tensorAssemble testDest testDul
        (derivativeCascade (srcRegionImage testSul testSlr zeroSrc)
          testDeriv testSmooth) 2 2) ∧
    (derivativeCascade (srcRegionImage testSul testSlr zeroSrc)
      testDeriv testSmooth).gx.pix 0 0 = 0 ∧
    (tensorAssemble testDest testDul
      (derivativeCascade (srcRegionImage testSul testSlr zeroSrc)
        testDeriv testSmooth) 2 2).pix 0 0 0 = 0 :=
  ⟨rfl, rfl,
    ((gradientEnergyTensor_zero_input testSul testSlr testDul testDest
      testDeriv testSmooth rfl _ rfl).1 0 0).1,
    (gradientEnergyTensor_zero_input testSul testSlr testDul testDest
      testDeriv testSmooth rfl _ rfl).2 0 0 0 (by decide) (by decide)
      (by decide) (by decide) (by decide)⟩

/-- C6: on a spatially constant input image, provided the derivative kernel
annihilates constants (its taps sum to zero, so the derivative of a constant
vanishes under the convolution primitive's border policy), every intermediate
field of the cascade is zero everywhere and every band of every pixel of the
populated output region is zero. -/
theorem gradientEnergyTensor_const_input (c : ℚ)
    (supperleft slowerright dupperleft : Diff2D) (dest : MultibandImage)
    (derivKernel smoothKernel : Kernel1D)
    (hD : kernelTapSum derivKernel = 0) (hb : dest.bands = 3)
    (out : MultibandImage)
    (hout : gradientEnergyTensor supperleft slowerright (constSrc c) dupperleft
      dest derivKernel smoothKernel = Except.ok out) :
    (∀ x y : Int,
      (derivativeCascade (srcRegionImage supperleft slowerright (constSrc c))
        derivKernel smoothKernel).gx.pix x y = 0 ∧
      (derivativeCascade (srcRegionImage supperleft slowerright (constSrc c))
        derivKernel smoothKernel).gy.pix x y = 0 ∧
      (derivativeCascade (srcRegionImage supperleft slowerright (constSrc c))
        derivKernel smoothKernel).gxx.pix x y = 0 ∧
      (derivativeCascade (srcRegionImage supperleft slowerright (constSrc c))
        derivKernel smoothKernel).gxy.pix x y = 0 ∧
      (derivativeCascade (srcRegionImage supperleft slowerright (constSrc c))
        derivKernel smoothKernel).gyy.pix x y = 0 ∧
      (derivativeCascade (srcRegionImage supperleft slowerright (constSrc c))
        derivKernel smoothKernel).laplace.pix x y = 0 ∧
      (derivativeCascade (srcRegionImage supperleft slowerright (constSrc c))
        derivKernel smoothKernel).gx3.pix x y = 0 ∧
      (derivativeCascade (srcRegionImage supperleft slowerright (constSrc c))
        derivKernel smoothKernel).gy3.pix x y = 0) ∧
    (∀ (b : Nat) (x y : Int), b < 3 →
      dupperleft.x ≤ x →
      x < dupperleft.x + ((slowerright.x - supperleft.x).toNat : Int) →
      dupperleft.y ≤ y →
      y < dupperleft.y + ((slowerright.y - supperleft.y).toNat : Int) →
      out.pix b x y = 0) := by
  have hc : ∀ x y : Int,
      (srcRegionImage supperleft slowerright (constSrc c)).pix x y = c :=
    fun _ _ => rfl
  have hgx : ∀ x y : Int,
      (convolveImage (srcRegionImage supperleft slowerright (constSrc c))
        derivKernel smoothKernel).pix x y = 0 := by
    intro x y
    rw [convolveImage_const_pix _ _ _ c hc, hD]
    ring
  have hgy : ∀ x y : Int,
      (convolveImage (srcRegionImage supperleft slowerright (constSrc c))
        smoothKernel derivKernel).pix x y = 0 := by
    intro x y
    rw [convolveImage_const_pix _ _ _ c hc, hD]
    ring
  have hall := derivativeCascade_zero_of_first_zero
    (srcRegionImage supperleft slowerright (constSrc c))
    derivKernel smoothKernel hgx hgy
  rw [gradientEnergyTensor_ok _ _ _ _ _ _ _ hb, Except.ok.injEq] at hout
  subst hout
  refine ⟨hall, ?_⟩
  intro b x y h1 h2 h3 h4 h5
  rw [tensorAssemble_pix, if_pos ⟨h1, h2, h3, h4, h5⟩]
  exact tensorComponent_zero _ _ _ (hall _ _) b

lemma Icc_m1_1 : (Finset.Icc (-1 : ℤ) 1) = {-1, 0, 1} := by
  ext n
  simp [Finset.mem_Icc]
  omega

lemma kernelTapSum_testDeriv : kernelTapSum testDeriv = 0 := by
  rw [kernelTapSum, show testDeriv.left = -1 from rfl,
    show testDeriv.right = 1 from rfl, Icc_m1_1]
  rw [show ({-1, 0, 1} : Finset ℤ) = insert (-1) (insert 0 {1}) from rfl]
  rw [Finset.sum_insert (by decide), Finset.sum_insert (by decide),
    Finset.sum_singleton]
  norm_num [testDeriv]

/-- Witness for C6: the constant-5 image with the zero-sum central-difference
kernel gives a zero gx field and a zero output pixel. -/
theorem gradientEnergyTensor_const_input_witness :
    kernelTapSum testDeriv = 0 ∧
    testDest.bands = 3 ∧
    gradientEnergyTensor testSul testSlr (constSrc 5) testDul testDest
      testDeriv testSmooth = Except.ok (tensorAssemble testDest testDul
        (derivativeCascade (srcRegionImage testSul testSlr (constSrc 5))
          testDeriv testSmooth) 2 2) ∧
    (derivativeCascade (srcRegionImage testSul testSlr (constSrc 5))
      testDeriv testSmooth).gx.pix 0 0 = 0 ∧
    (tensorAssemble testDest testDul
      (derivativeCascade (srcRegionImage testSul testSlr (constSrc 5))
        testDeriv testSmooth) 2 2).pix 0 0 0 = 0 :=
  ⟨kernelTapSum_testDeriv, rfl, rfl,
    ((gradientEnergyTensor_const_input 5 testSul testSlr testDul testDest
      testDeriv testSmooth kernelTapSum_testDeriv rfl _ rfl).1 0 0).1,
    (gradientEnergyTensor_const_input 5 testSul testSlr testDul testDest
      testDeriv testSmooth kernelTapSum_testDeriv rfl _ rfl).2 0 0 0 (by decide)
      (by decide) (by decide) (by decide) (by decide)⟩

/-- C7: `gradientEnergyTensor` is a pure, deterministic function of the input
image and the two kernels: two runs on (extensionally) equal inputs return
equal results, and re-running the tensor assembly on the same seven
precomputed fields is idempotent — it writes the identical output. -/
theorem gradientEnergyTensor_pure_deterministic
    (supperleft slowerright dupperleft : Diff2D) (dest : MultibandImage)
    (derivKernel smoothKernel : Kernel1D) (src1 src2 : Int → Int → ℚ)
    (hsrc : ∀ x y, src1 x y = src2 x y)
    (F : CascadeFields) (w h : Int) :
    gradientEnergyTensor supperleft slowerright src1 dupperleft dest
        derivKernel smoothKernel =
      gradientEnergyTensor supperleft slowerright src2 dupperleft dest
        derivKernel smoothKernel ∧
    tensorAssemble (tensorAssemble dest dupperleft F w h) dupperleft F w h =
      tensorAssemble dest dupperleft F w h := by
  constructor
  · have hs : src1 = src2 := funext fun x => funext fun y => hsrc x y
    rw [hs]
  · apply MultibandImage.ext
    · rw [tensorAssemble_bands, tensorAssemble_bands]
    · funext b x y
      rw [tensorAssemble_pix, tensorAssemble_pix]
      split_ifs <;> rfl

/-- Witness for C7: determinism and assembly idempotence on the 2×2 ramp
fixture. -/
theorem gradientEnergyTensor_pure_deterministic_witness :
    gradientEnergyTensor testSul testSlr testSrc testDul testDest
        testDeriv testSmooth =
      gradientEnergyTensor testSul testSlr testSrc testDul testDest
        testDeriv testSmooth ∧
    tensorAssemble (tensorAssemble testDest testDul
        (derivativeCascade (srcRegionImage testSul testSlr testSrc)
          testDeriv testSmooth) 2 2) testDul
        (derivativeCascade (srcRegionImage testSul testSlr testSrc)
          testDeriv testSmooth) 2 2 =
      tensorAssemble testDest testDul
        (derivativeCascade (srcRegionImage testSul testSlr testSrc)
          testDeriv testSmooth) 2 2 :=
  gradientEnergyTensor_pure_deterministic testSul testSlr testDul testDest
    testDeriv testSmooth testSrc testSrc (fun _ _ => rfl)
    (derivativeCascade (srcRegionImage testSul testSlr testSrc)
      testDeriv testSmooth) 2 2

end Vigra
